import Mathlib

/-
Verification of the DMA driver in src/dma.rs of the esp32c3-hal repository.

The Rust driver is shallowly embedded: the three 32-bit words of a DMA
linked-list descriptor (`ListItem`) become a structure of natural numbers
kept below 2^32 by the same masks the source applies, and the volatile
memory-mapped register accesses of `Channel` / `DMAPipe` become explicit
state passing over a register file together with a trace of access events.
-/

set_option maxHeartbeats 1000000

namespace Esp32c3Hal

/-! ## Bit-manipulation toolkit -/

/-- Remainder by a power of two distributes over bitwise or. -/
theorem or_mod_two_pow (a b n : Nat) :
    (a ||| b) % 2 ^ n = (a % 2 ^ n) ||| (b % 2 ^ n) := by
  apply Nat.eq_of_testBit_eq
  intro i
  by_cases h : i < n <;>
    simp [Nat.testBit_mod_two_pow, Nat.testBit_or, h]

/-- Right shift distributes over bitwise or. -/
theorem or_shiftRight (a b n : Nat) :
    (a ||| b) >>> n = (a >>> n) ||| (b >>> n) := by
  apply Nat.eq_of_testBit_eq
  intro i
  simp [Nat.testBit_shiftRight, Nat.testBit_or]

/-- Right shift distributes over bitwise and. -/
theorem and_shiftRight (a b n : Nat) :
    (a &&& b) >>> n = (a >>> n) &&& (b >>> n) := by
  apply Nat.eq_of_testBit_eq
  intro i
  simp [Nat.testBit_shiftRight, Nat.testBit_and]

/-- Shifting left then right by the same amount is the identity on Nat. -/
theorem shiftLeft_shiftRight (a n : Nat) : (a <<< n) >>> n = a := by
  apply Nat.eq_of_testBit_eq
  intro i
  simp [Nat.testBit_shiftRight, Nat.testBit_shiftLeft, Nat.le_add_right,
    Nat.add_sub_cancel_left]

/-- Right shift of a small number gives zero. -/
theorem shiftRight_eq_zero {a n : Nat} (h : a < 2 ^ n) : a >>> n = 0 := by
  simp [Nat.shiftRight_eq_div_pow, Nat.div_eq_of_lt h]

/-- Bits at or above the width of a number are clear. -/
theorem testBit_high_of_lt {x n i : Nat} (hx : x < 2 ^ n) (h : n ≤ i) :
    x.testBit i = false :=
  Nat.testBit_lt_two_pow
    (lt_of_lt_of_le hx (Nat.pow_le_pow_right (by norm_num) h))

/-! ## Descriptor (`ListItem` in src/dma.rs)

One node of the hardware linked list: three 32-bit words `state`,
`buffer_ptr`, `next_item_ptr`, modelled as natural numbers. -/

/-- Mirror of `ListItem` (src/dma.rs lines 8-13). -/
structure ListItem where
  state : Nat
  buffer_ptr : Nat
  next_item_ptr : Nat
deriving DecidableEq

/-- Mirror of `ListItem::new` (src/dma.rs lines 17-23):
`state = 0b11 << 30`, the other words zero. -/
def ListItem.new : ListItem :=
  { state := 0b11 <<< 30, buffer_ptr := 0, next_item_ptr := 0 }

/-- Mirror of `ListItem::set_buffer` (src/dma.rs lines 26-35).  The Rust
function receives a byte slice; here the slice is represented by its length
and its address.  `debug_assert!(len < 4096)` is modelled as the fallible
branch: `none` is the debug-build assertion failure.  On success the source
does `state |= (len << 12) | len` and stores the address cast to u32. -/
def ListItem.set_buffer (item : ListItem) (len addr : Nat) : Option ListItem :=
  if len < 4096 then
    some { item with
            state := item.state ||| ((len <<< 12) ||| len),
            buffer_ptr := addr % 2 ^ 32 }
  else
    none

/-- Mirror of `ListItem::set_next` (src/dma.rs lines 38-42):
`state &= !(1 << 30)` — `0xBFFFFFFF` is the 32-bit value of `!(1 << 30)` —
and the successor address is stored cast to u32. -/
def ListItem.set_next (item : ListItem) (next_addr : Nat) : ListItem :=
  { item with
      state := item.state &&& 0xBFFFFFFF,
      next_item_ptr := next_addr % 2 ^ 32 }

/-- Mirror of `ListItem::has_error` (src/dma.rs lines 45-47):
`(state >> 28) != 0`. -/
def ListItem.has_error (item : ListItem) : Bool :=
  item.state >>> 28 != 0

/-- The 12-bit capacity field of the control word: bits 0-11 of `state`. -/
def ListItem.capacity_field (item : ListItem) : Nat :=
  item.state &&& 0xFFF

/-- The 12-bit transferred-length field of the control word: bits 12-23 of
`state`. -/
def ListItem.length_field (item : ListItem) : Nat :=
  (item.state >>> 12) &&& 0xFFF

/-- The end-of-list flag of the control word: bit 30 of `state`. -/
def ListItem.eol_flag (item : ListItem) : Bool :=
  item.state.testBit 30

/-- The owner/continuation flag of the control word: bit 31 of `state`. -/
def ListItem.owner_flag (item : ListItem) : Bool :=
  item.state.testBit 31

/-! ## Field extraction lemmas for the packed control word -/

/-- Masking with `0xFFF` is remainder by `2 ^ 12`. -/
theorem and_fff_eq_mod (x : Nat) : x &&& 0xFFF = x % 2 ^ 12 := by
  have h : (0xFFF : Nat) = 2 ^ 12 - 1 := by norm_num
  rw [h, Nat.and_pow_two_sub_one_eq_mod]

/-- Masking with `0xFFFFF` is remainder by `2 ^ 20`. -/
theorem and_fffff_eq_mod (x : Nat) : x &&& 0xFFFFF = x % 2 ^ 20 := by
  have h : (0xFFFFF : Nat) = 2 ^ 20 - 1 := by norm_num
  rw [h, Nat.and_pow_two_sub_one_eq_mod]

/-- A length shifted into the bits 12-23 slot leaves bits 0-11 clear. -/
theorem shl12_mod_2_12 (len : Nat) : (len <<< 12) % 2 ^ 12 = 0 := by
  rw [Nat.shiftLeft_eq]
  exact Nat.mul_mod_left len (2 ^ 12)

/-- Low 12 bits of the length word `(len << 12) | len` recover `len`. -/
theorem len_word_mod12 (len : Nat) (h : len < 4096) :
    ((len <<< 12) ||| len) % 2 ^ 12 = len := by
  rw [or_mod_two_pow, shl12_mod_2_12, Nat.zero_or]
  exact Nat.mod_eq_of_lt (by omega)

/-- Bits 12-23 of the length word `(len << 12) | len` recover `len`. -/
theorem len_word_shr12_mod12 (len : Nat) (h : len < 4096) :
    (((len <<< 12) ||| len) >>> 12) % 2 ^ 12 = len := by
  rw [or_shiftRight, shiftLeft_shiftRight,
    shiftRight_eq_zero (show len < 2 ^ 12 by omega), Nat.or_zero]
  exact Nat.mod_eq_of_lt (by omega)

/-! ## Claims about the Descriptor -/

/-- Claim C1 (code evaluated at the failing input): a freshly created
descriptor is terminal — end-of-list flag set, successor pointer zero — but
`has_error` returns `true`, not `false` as the claim states, because the
owner and end-of-list bits written by `ListItem::new` lie inside the top 4
bits that `has_error` tests (`(0b11 << 30) >> 28 = 0b1100 ≠ 0`). -/
theorem C1_fresh_descriptor_eval :
    ListItem.new.has_error = true ∧
    ListItem.new.eol_flag = true ∧
    ListItem.new.next_item_ptr = 0 := by
  decide

/-- Claim C3 counterexample: attaching a length-1 buffer and then a length-2
buffer to a fresh descriptor does not give the state of attaching the
length-2 buffer alone — `set_buffer` ors the length word into `state`, so the
capacity field reads back `1 ||| 2 = 3`, not `2`. -/
theorem C3_overwrite_counterexample :
    ((ListItem.new.set_buffer 1 100).bind fun it => it.set_buffer 2 200) ≠
        ListItem.new.set_buffer 2 200 ∧
      (((ListItem.new.set_buffer 1 100).bind fun it =>
          it.set_buffer 2 200).map ListItem.capacity_field = some 3) ∧
      (ListItem.new.set_buffer 2 200).map ListItem.capacity_field = some 2 := by
  decide

/-- Claim C3 (amended): on a fresh descriptor, a second `attach_buffer` call
overwrites the buffer address, but the capacity and length fields are
bitwise-ORed with the new length rather than overwritten: after
`attach_buffer` with `len1` then with `len2` both fields read back
`len1 ||| len2`, which coincides with the single-call state only when
`len1 ||| len2 = len2`. -/
theorem C3_second_attach_ors_length (len1 len2 addr1 addr2 : Nat)
    (h1 : len1 < 4096) (h2 : len2 < 4096) :
    ∃ it,
      ((ListItem.new.set_buffer len1 addr1).bind fun j =>
        j.set_buffer len2 addr2) = some it ∧
      it.buffer_ptr = addr2 % 2 ^ 32 ∧
      it.capacity_field = len1 ||| len2 ∧
      it.length_field = len1 ||| len2 := by
  refine ⟨{ state := ((0b11 <<< 30) ||| ((len1 <<< 12) ||| len1)) |||
              ((len2 <<< 12) ||| len2),
            buffer_ptr := addr2 % 2 ^ 32, next_item_ptr := 0 }, ?_, rfl, ?_, ?_⟩
  · simp [ListItem.set_buffer, ListItem.new, h1, h2]
  · show (((0b11 <<< 30) ||| ((len1 <<< 12) ||| len1)) |||
      ((len2 <<< 12) ||| len2)) &&& 0xFFF = len1 ||| len2
    rw [and_fff_eq_mod, or_mod_two_pow, or_mod_two_pow, len_word_mod12 len1 h1,
      len_word_mod12 len2 h2,
      show (0b11 <<< 30 : Nat) % 2 ^ 12 = 0 by decide, Nat.zero_or]
  · show ((((0b11 <<< 30) ||| ((len1 <<< 12) ||| len1)) |||
      ((len2 <<< 12) ||| len2)) >>> 12) &&& 0xFFF = len1 ||| len2
    rw [and_fff_eq_mod, or_shiftRight, or_shiftRight, or_mod_two_pow,
      or_mod_two_pow, len_word_shr12_mod12 len1 h1, len_word_shr12_mod12 len2 h2,
      show ((0b11 <<< 30 : Nat) >>> 12) % 2 ^ 12 = 0 by decide, Nat.zero_or]

/-- Claim C3 amended witness at `len1 = 1`, `len2 = 2`. -/
theorem C3_second_attach_ors_length_witness :
    ∃ it,
      ((ListItem.new.set_buffer 1 100).bind fun j =>
        j.set_buffer 2 200) = some it ∧
      it.buffer_ptr = 200 % 2 ^ 32 ∧
      it.capacity_field = 1 ||| 2 ∧
      it.length_field = 1 ||| 2 :=
  C3_second_attach_ors_length 1 2 100 200 (by decide) (by decide)

/-- Claim C4: for every buffer length below 4096, `set_buffer` on a fresh
descriptor succeeds, the 12-bit capacity field (bits 0-11) and the 12-bit
transferred-length field (bits 12-23) both read back exactly the length, and
the stored buffer address equals the buffer address. -/
theorem C4_attach_buffer_readback (len addr : Nat) (h1 : len < 4096)
    (h2 : addr < 2 ^ 32) :
    ∃ it, ListItem.new.set_buffer len addr = some it ∧
      it.capacity_field = len ∧ it.length_field = len ∧ it.buffer_ptr = addr := by
  refine ⟨{ state := (0b11 <<< 30) ||| ((len <<< 12) ||| len),
            buffer_ptr := addr % 2 ^ 32, next_item_ptr := 0 }, ?_, ?_, ?_, ?_⟩
  · simp [ListItem.set_buffer, ListItem.new, h1]
  · show ((0b11 <<< 30) ||| ((len <<< 12) ||| len)) &&& 0xFFF = len
    rw [and_fff_eq_mod, or_mod_two_pow, len_word_mod12 len h1,
      show (0b11 <<< 30 : Nat) % 2 ^ 12 = 0 by decide, Nat.zero_or]
  · show (((0b11 <<< 30) ||| ((len <<< 12) ||| len)) >>> 12) &&& 0xFFF = len
    rw [and_fff_eq_mod, or_shiftRight, or_mod_two_pow,
      len_word_shr12_mod12 len h1,
      show ((0b11 <<< 30 : Nat) >>> 12) % 2 ^ 12 = 0 by decide, Nat.zero_or]
  · exact Nat.mod_eq_of_lt h2

/-- Claim C4 witness at `len = 10`, `addr = 70000`. -/
theorem C4_attach_buffer_readback_witness :
    ∃ it, ListItem.new.set_buffer 10 70000 = some it ∧
      it.capacity_field = 10 ∧ it.length_field = 10 ∧ it.buffer_ptr = 70000 :=
  C4_attach_buffer_readback 10 70000 (by decide) (by decide)

/-- Claim C5: a buffer of length at least 4096 is rejected by `set_buffer`
(the `debug_assert!(len < 4096)` fires, modelled as the `none` branch), so
the length is never packed truncated into the 12-bit fields. -/
theorem C5_oversized_buffer_rejected (item : ListItem) (len addr : Nat)
    (h : 4096 ≤ len) :
    item.set_buffer len addr = none := by
  simp [ListItem.set_buffer, Nat.not_lt.mpr h]

/-- Claim C5 witness at `len = 4096`. -/
theorem C5_oversized_buffer_rejected_witness :
    ListItem.new.set_buffer 4096 0 = none :=
  C5_oversized_buffer_rejected ListItem.new 4096 0 (by decide)

/-- Claim C6: after `set_next` with any successor address, zero included, the
end-of-list flag (bit 30 of the control word) is cleared and the stored
successor address equals the given address. -/
theorem C6_link_next (item : ListItem) (addr : Nat) (h : addr < 2 ^ 32) :
    (item.set_next addr).eol_flag = false ∧
    (item.set_next addr).next_item_ptr = addr := by
  constructor
  · have h30 : Nat.testBit 0xBFFFFFFF 30 = false := by decide
    simp [ListItem.set_next, ListItem.eol_flag, Nat.testBit_and, h30]
  · exact Nat.mod_eq_of_lt h

/-- Claim C6 witness at the successor address zero. -/
theorem C6_link_next_witness :
    (ListItem.new.set_next 0).eol_flag = false ∧
    (ListItem.new.set_next 0).next_item_ptr = 0 :=
  C6_link_next ListItem.new 0 (by decide)

/-- Claim C10: `set_next` touches only bit 30 of the control word and the
successor pointer: the owner flag (bit 31), the capacity field, the length
field and the buffer address are unchanged, and in fact every control-word
bit other than bit 30 is unchanged. -/
theorem C10_set_next_frame (item : ListItem) (addr : Nat) :
    (item.set_next addr).owner_flag = item.owner_flag ∧
    (item.set_next addr).capacity_field = item.capacity_field ∧
    (item.set_next addr).length_field = item.length_field ∧
    (item.set_next addr).buffer_ptr = item.buffer_ptr ∧
    (∀ i, i < 32 → i ≠ 30 →
      (item.set_next addr).state.testBit i = item.state.testBit i) := by
  refine ⟨?_, ?_, ?_, rfl, ?_⟩
  · have h31 : Nat.testBit 0xBFFFFFFF 31 = true := by decide
    simp [ListItem.set_next, ListItem.owner_flag, Nat.testBit_and, h31]
  · show (item.state &&& 0xBFFFFFFF) &&& 0xFFF = item.state &&& 0xFFF
    rw [Nat.and_assoc, show (0xBFFFFFFF &&& 0xFFF : Nat) = 0xFFF by decide]
  · show ((item.state &&& 0xBFFFFFFF) >>> 12) &&& 0xFFF =
      (item.state >>> 12) &&& 0xFFF
    rw [and_shiftRight, Nat.and_assoc,
      show ((0xBFFFFFFF : Nat) >>> 12) &&& 0xFFF = 0xFFF by decide]
  · intro i hlt hne
    have hM : (0xBFFFFFFF : Nat) = (2 ^ 30 - 1) ||| 2 ^ 31 := by decide
    show (item.state &&& 0xBFFFFFFF).testBit i = item.state.testBit i
    rw [hM]
    simp only [Nat.testBit_and, Nat.testBit_or, Nat.testBit_two_pow_sub_one,
      Nat.testBit_two_pow]
    rcases Nat.lt_or_ge i 30 with h30 | h30
    · simp [h30]
    · have h31 : i = 31 := by omega
      simp [h31]

/-- Claim C10 witness: bit 29 of an all-ones control word survives
`set_next`, as do the named fields. -/
theorem C10_set_next_frame_witness :
    ((⟨0xFFFFFFFF, 5, 7⟩ : ListItem).set_next 4).state.testBit 29 =
      (⟨0xFFFFFFFF, 5, 7⟩ : ListItem).state.testBit 29 :=
  (C10_set_next_frame ⟨0xFFFFFFFF, 5, 7⟩ 4).2.2.2.2 29 (by decide) (by decide)

/-! ## Channel and DMAPipe (src/dma.rs)

The memory-mapped DMA register block is embedded as a register file indexed
by a register name, and every `read_volatile` / `write_volatile` of the
source appends an event to a trace, so that ordering claims can be stated. -/

/-- Mirror of the `Channel` enum (src/dma.rs lines 71-78). -/
inductive Channel
  | Channel0
  | Channel1
  | Channel2
deriving DecidableEq

/-- The DMA registers touched by the embedded operations, one per channel:
`out_conf0_chN` / `in_conf0_chN`, `out_link_chN` / `in_link_chN`, and the
interrupt status register `int_st_chN`. -/
inductive Reg
  | out_conf0 (ch : Channel)
  | in_conf0 (ch : Channel)
  | out_link (ch : Channel)
  | in_link (ch : Channel)
  | int_st (ch : Channel)
deriving DecidableEq

/-- One volatile access to the register block. -/
inductive Event
  | read (r : Reg) (v : Nat)
  | write (r : Reg) (v : Nat)
deriving DecidableEq

/-- Machine state: current register values plus the trace of volatile
accesses performed so far. -/
structure DmaState where
  regs : Reg → Nat
  trace : List Event

/-- Mirror of `core::ptr::read_volatile` on a DMA register: returns the
current value and logs the access. -/
def read_volatile (s : DmaState) (r : Reg) : Nat × DmaState :=
  (s.regs r, { s with trace := s.trace ++ [Event.read r (s.regs r)] })

/-- Mirror of `core::ptr::write_volatile` on a DMA register: stores the
value and logs the access. -/
def write_volatile (s : DmaState) (r : Reg) (v : Nat) : DmaState :=
  { regs := fun q => if q = r then v else s.regs q,
    trace := s.trace ++ [Event.write r v] }

/-- The `match self` register selection of `Channel::tx_reset`. -/
def Channel.out_conf0_reg : Channel → Reg
  | .Channel0 => .out_conf0 .Channel0
  | .Channel1 => .out_conf0 .Channel1
  | .Channel2 => .out_conf0 .Channel2

/-- The `match self` register selection of `Channel::rx_reset`. -/
def Channel.in_conf0_reg : Channel → Reg
  | .Channel0 => .in_conf0 .Channel0
  | .Channel1 => .in_conf0 .Channel1
  | .Channel2 => .in_conf0 .Channel2

/-- The `match self` register selection of `Channel::set_tx_start` and
`Channel::tx_enable`. -/
def Channel.out_link_reg : Channel → Reg
  | .Channel0 => .out_link .Channel0
  | .Channel1 => .out_link .Channel1
  | .Channel2 => .out_link .Channel2

/-- The `match self` register selection of `Channel::set_rx_start` and
`Channel::rx_enable`. -/
def Channel.in_link_reg : Channel → Reg
  | .Channel0 => .in_link .Channel0
  | .Channel1 => .in_link .Channel1
  | .Channel2 => .in_link .Channel2

theorem out_conf0_reg_eq (ch : Channel) : ch.out_conf0_reg = .out_conf0 ch := by
  cases ch <;> rfl

theorem in_conf0_reg_eq (ch : Channel) : ch.in_conf0_reg = .in_conf0 ch := by
  cases ch <;> rfl

theorem out_link_reg_eq (ch : Channel) : ch.out_link_reg = .out_link ch := by
  cases ch <;> rfl

theorem in_link_reg_eq (ch : Channel) : ch.in_link_reg = .in_link ch := by
  cases ch <;> rfl

/-- Mirror of the associated function `Channel::reset` (src/dma.rs lines
82-94): read conf0, set bit 0, write it back; read again, clear bit 0
(`!0b1` is `0xFFFFFFFE` on 32 bits), write it back. -/
def Channel.reset (conf0_reg : Reg) (s : DmaState) : DmaState :=
  let r1 := read_volatile s conf0_reg
  let s1 := write_volatile r1.2 conf0_reg (r1.1 ||| 0b1)
  let r2 := read_volatile s1 conf0_reg
  write_volatile r2.2 conf0_reg (r2.1 &&& 0xFFFFFFFE)

/-- Mirror of `Channel::tx_reset` (src/dma.rs lines 97-105). -/
def Channel.tx_reset (ch : Channel) (s : DmaState) : DmaState :=
  Channel.reset ch.out_conf0_reg s

/-- Mirror of `Channel::rx_reset` (src/dma.rs lines 108-116). -/
def Channel.rx_reset (ch : Channel) (s : DmaState) : DmaState :=
  Channel.reset ch.in_conf0_reg s

/-- Mirror of `Channel::set_tx_start` (src/dma.rs lines 119-135): read
out_link, clear its low 20 bits (`!0xFFFFF` is `0xFFF00000` on 32 bits), or
in the low 20 bits of the list address cast to u32, write it back. -/
def Channel.set_tx_start (ch : Channel) (s : DmaState) (list_ptr : Nat) :
    DmaState :=
  let r := read_volatile s ch.out_link_reg
  write_volatile r.2 ch.out_link_reg
    ((r.1 &&& 0xFFF00000) ||| ((list_ptr % 2 ^ 32) &&& 0xFFFFF))

/-- Mirror of `Channel::set_rx_start` (src/dma.rs lines 138-154). -/
def Channel.set_rx_start (ch : Channel) (s : DmaState) (list_ptr : Nat) :
    DmaState :=
  let r := read_volatile s ch.in_link_reg
  write_volatile r.2 ch.in_link_reg
    ((r.1 &&& 0xFFF00000) ||| ((list_ptr % 2 ^ 32) &&& 0xFFFFF))

/-- Mirror of `Channel::rx_enable` (src/dma.rs lines 179-191): read-modify-
write setting bit 22 of in_link. -/
def Channel.rx_enable (ch : Channel) (s : DmaState) : DmaState :=
  let r := read_volatile s ch.in_link_reg
  write_volatile r.2 ch.in_link_reg (r.1 ||| (1 <<< 22))

/-- Mirror of `Channel::tx_enable` (src/dma.rs lines 194-206): read-modify-
write setting bit 22 of out_link. -/
def Channel.tx_enable (ch : Channel) (s : DmaState) : DmaState :=
  let r := read_volatile s ch.out_link_reg
  write_volatile r.2 ch.out_link_reg (r.1 ||| (1 <<< 22))

/-- Mirror of `Channel::mem_to_mem` (src/dma.rs lines 209-221): read-modify-
write setting bit 4 of in_conf0. -/
def Channel.mem_to_mem (ch : Channel) (s : DmaState) : DmaState :=
  let r := read_volatile s ch.in_conf0_reg
  write_volatile r.2 ch.in_conf0_reg (r.1 ||| (1 <<< 4))

/-- Mirror of the `DMAPipe` struct (src/dma.rs lines 225-229); the register
block handle is the explicitly passed `DmaState`. -/
structure DMAPipe where
  tx_channel : Channel
  rx_channel : Channel

/-- Mirror of `DMAPipe::start_transfer` (src/dma.rs lines 266-272): program
the transmit start list, program the receive start list, then enable the
transmit side and the receive side. -/
def DMAPipe.start_transfer (p : DMAPipe) (s : DmaState)
    (tx_list rx_list : Nat) : DmaState :=
  let s1 := p.tx_channel.set_tx_start s tx_list
  let s2 := p.rx_channel.set_rx_start s1 rx_list
  let s3 := p.tx_channel.tx_enable s2
  p.rx_channel.rx_enable s3

/-- The OUT_EOF status bit of an `int_st_chN` register value (bit 4). -/
def out_eof_int_st (v : Nat) : Bool := v.testBit 4

/-- The IN_DONE status bit of an `int_st_chN` register value (bit 0). -/
def in_done_int_st (v : Nat) : Bool := v.testBit 0

/-- Mirror of `DMAPipe::get_tx_completion` (src/dma.rs lines 275-281): the
match scrutinee is `self.tx_channel`. -/
def DMAPipe.get_tx_completion (p : DMAPipe) (s : DmaState) : Bool :=
  match p.tx_channel with
  | .Channel0 => out_eof_int_st (s.regs (.int_st .Channel0))
  | .Channel1 => out_eof_int_st (s.regs (.int_st .Channel1))
  | .Channel2 => out_eof_int_st (s.regs (.int_st .Channel2))

/-- Mirror of `DMAPipe::get_rx_completion` (src/dma.rs lines 284-290): the
match scrutinee in the source is `self.tx_channel`, not `self.rx_channel`. -/
def DMAPipe.get_rx_completion (p : DMAPipe) (s : DmaState) : Bool :=
  match p.tx_channel with
  | .Channel0 => in_done_int_st (s.regs (.int_st .Channel0))
  | .Channel1 => in_done_int_st (s.regs (.int_st .Channel1))
  | .Channel2 => in_done_int_st (s.regs (.int_st .Channel2))

/-- The sequence of values written to register `r` in a trace. -/
def writes_to (r : Reg) (t : List Event) : List Nat :=
  t.filterMap fun e =>
    match e with
    | Event.write q v => if q = r then some v else none
    | Event.read _ _ => none

/-! ## Helper lemmas for the register claims -/

/-- Setting then clearing the conf0 reset bit a second time reproduces the
value left by the first pulse. -/
theorem clear_set_clear (v : Nat) :
    ((((v ||| 1) &&& 0xFFFFFFFE) ||| 1) &&& 0xFFFFFFFE) =
      (v ||| 1) &&& 0xFFFFFFFE := by
  rw [Nat.and_distrib_right, Nat.and_assoc, Nat.and_self,
    show (1 &&& 0xFFFFFFFE : Nat) = 0 by decide, Nat.or_zero]

/-- The value programmed by `set_start` carries the low 20 bits of the list
address. -/
theorem low20_of_set (v a : Nat) :
    ((v &&& 0xFFF00000) ||| ((a % 2 ^ 32) &&& 0xFFFFF)) &&& 0xFFFFF =
      a &&& 0xFFFFF := by
  rw [Nat.and_distrib_right, Nat.and_assoc,
    show (0xFFF00000 &&& 0xFFFFF : Nat) = 0 by decide, Nat.and_zero,
    Nat.zero_or, Nat.and_assoc, Nat.and_self, and_fffff_eq_mod,
    and_fffff_eq_mod, Nat.mod_mod_of_dvd a (pow_dvd_pow 2 (by norm_num))]

/-- Masking a 32-bit value with `0xFFF00000` keeps bits 20-31 intact. -/
theorem and_fff00000_shr20 (v : Nat) (hv : v < 2 ^ 32) :
    (v &&& 0xFFF00000) >>> 20 = v >>> 20 := by
  apply Nat.eq_of_testBit_eq
  intro i
  rcases Nat.lt_or_ge i 12 with h | h
  · have hMb : Nat.testBit 0xFFF00000 (20 + i) = true := by
      rw [show (0xFFF00000 : Nat) = (2 ^ 12 - 1) <<< 20 by
          norm_num [Nat.shiftLeft_eq],
        Nat.testBit_shiftLeft, show 20 + i - 20 = i by omega,
        Nat.testBit_two_pow_sub_one]
      simp only [Bool.and_eq_true, decide_eq_true_eq]
      omega
    simp [Nat.testBit_shiftRight, Nat.testBit_and, hMb]
  · have h1 : v.testBit (20 + i) = false := testBit_high_of_lt hv (by omega)
    simp [Nat.testBit_shiftRight, Nat.testBit_and, h1]

/-- The value programmed by `set_start` keeps bits 20 and above of the old
register value. -/
theorem high20_of_set (v a : Nat) (hv : v < 2 ^ 32) :
    ((v &&& 0xFFF00000) ||| ((a % 2 ^ 32) &&& 0xFFFFF)) >>> 20 = v >>> 20 := by
  have h0 : (a % 2 ^ 32) &&& 0xFFFFF < 2 ^ 20 :=
    Nat.and_lt_two_pow _ (show (0xFFFFF : Nat) < 2 ^ 20 by norm_num)
  rw [or_shiftRight, shiftRight_eq_zero h0, Nat.or_zero,
    and_fff00000_shr20 v hv]

/-- The value programmed by `set_start` keeps bit 22 — the enable bit — of
the old register value. -/
theorem bit22_of_set (v a : Nat) :
    ((v &&& 0xFFF00000) ||| ((a % 2 ^ 32) &&& 0xFFFFF)).testBit 22 =
      v.testBit 22 := by
  simp [Nat.testBit_or, Nat.testBit_and,
    show Nat.testBit 0xFFF00000 22 = true by decide,
    show Nat.testBit 0xFFFFF 22 = false by decide]

/-! ## Claims about Channel and DMAPipe -/

/-- Claim C2 (code evaluated at the failing input): for the pipe with
transmit channel 0 and receive channel 1, `get_rx_completion` returns false
even though the receive channel's (channel 1's) IN_DONE status bit is set,
and returns true when only channel 0's bit is set — the source selects the
status register by `self.tx_channel`, not by the receive channel's
identity.  The claim's statement about `get_tx_completion` does hold; its
statement about `get_rx_completion` is refuted here. -/
theorem C2_rx_completion_reads_tx_channel :
    DMAPipe.get_rx_completion ⟨Channel.Channel0, Channel.Channel1⟩
        ⟨fun r => if r = Reg.int_st Channel.Channel1 then 1 else 0, []⟩ =
      false ∧
    in_done_int_st
        ((⟨fun r => if r = Reg.int_st Channel.Channel1 then 1 else 0, []⟩ :
          DmaState).regs (Reg.int_st Channel.Channel1)) = true ∧
    DMAPipe.get_rx_completion ⟨Channel.Channel0, Channel.Channel1⟩
        ⟨fun r => if r = Reg.int_st Channel.Channel0 then 1 else 0, []⟩ =
      true := by
  decide

/-- Claim C7: after `set_tx_start` / `set_rx_start`, reading the direction's
link register back gives the low 20 bits of the programmed list address,
while all higher bits — in particular the enable bit 22 — keep the value
they had before the call. -/
theorem C7_set_start_preserves_high_bits (ch : Channel) (s : DmaState)
    (tx_ptr rx_ptr : Nat)
    (htx : s.regs ch.out_link_reg < 2 ^ 32)
    (hrx : s.regs ch.in_link_reg < 2 ^ 32) :
    ((ch.set_tx_start s tx_ptr).regs ch.out_link_reg) &&& 0xFFFFF =
        tx_ptr &&& 0xFFFFF ∧
      ((ch.set_tx_start s tx_ptr).regs ch.out_link_reg) >>> 20 =
        (s.regs ch.out_link_reg) >>> 20 ∧
      ((ch.set_tx_start s tx_ptr).regs ch.out_link_reg).testBit 22 =
        (s.regs ch.out_link_reg).testBit 22 ∧
      ((ch.set_rx_start s rx_ptr).regs ch.in_link_reg) &&& 0xFFFFF =
        rx_ptr &&& 0xFFFFF ∧
      ((ch.set_rx_start s rx_ptr).regs ch.in_link_reg) >>> 20 =
        (s.regs ch.in_link_reg) >>> 20 ∧
      ((ch.set_rx_start s rx_ptr).regs ch.in_link_reg).testBit 22 =
        (s.regs ch.in_link_reg).testBit 22 := by
  have htxv : (ch.set_tx_start s tx_ptr).regs ch.out_link_reg =
      (s.regs ch.out_link_reg &&& 0xFFF00000) |||
        ((tx_ptr % 2 ^ 32) &&& 0xFFFFF) := by
    simp [Channel.set_tx_start, read_volatile, write_volatile]
  have hrxv : (ch.set_rx_start s rx_ptr).regs ch.in_link_reg =
      (s.regs ch.in_link_reg &&& 0xFFF00000) |||
        ((rx_ptr % 2 ^ 32) &&& 0xFFFFF) := by
    simp [Channel.set_rx_start, read_volatile, write_volatile]
  rw [htxv, hrxv]
  exact ⟨low20_of_set _ _, high20_of_set _ _ htx, bit22_of_set _ _,
    low20_of_set _ _, high20_of_set _ _ hrx, bit22_of_set _ _⟩

/-- Claim C7 witness: with the link register initially `0x400000` (enable
bit 22 set) the bit survives programming the start address. -/
theorem C7_set_start_preserves_high_bits_witness :
    ((Channel.Channel0.set_tx_start ⟨fun _ => 0x400000, []⟩ 0x3FC80123).regs
      Channel.Channel0.out_link_reg).testBit 22 = true := by
  have h := C7_set_start_preserves_high_bits Channel.Channel0
    ⟨fun _ => 0x400000, []⟩ 0x3FC80123 0x3FC80456 (by decide) (by decide)
  rw [h.2.2.1]
  decide

/-- Claim C8: in every execution of `start_transfer` from a clean trace, the
access trace has exactly eight events; the writes programming the transmit
and receive chain-head addresses sit at positions 1 and 3, both before the
enable writes at positions 5 and 7; each link register receives exactly two
writes, the head-address write first and the enable write second; the head
writes carry the low 20 bits of the chain-head addresses; and the enable
writes set bit 22 of the just-programmed values. -/
theorem C8_start_addresses_before_enable (p : DMAPipe) (regs : Reg → Nat)
    (tx_list rx_list : Nat) :
    ∃ v1 v2,
      (p.start_transfer ⟨regs, []⟩ tx_list rx_list).trace.length = 8 ∧
      (p.start_transfer ⟨regs, []⟩ tx_list rx_list).trace[1]? =
        some (Event.write (.out_link p.tx_channel) v1) ∧
      (p.start_transfer ⟨regs, []⟩ tx_list rx_list).trace[3]? =
        some (Event.write (.in_link p.rx_channel) v2) ∧
      (p.start_transfer ⟨regs, []⟩ tx_list rx_list).trace[5]? =
        some (Event.write (.out_link p.tx_channel) (v1 ||| (1 <<< 22))) ∧
      (p.start_transfer ⟨regs, []⟩ tx_list rx_list).trace[7]? =
        some (Event.write (.in_link p.rx_channel) (v2 ||| (1 <<< 22))) ∧
      writes_to (.out_link p.tx_channel)
          (p.start_transfer ⟨regs, []⟩ tx_list rx_list).trace =
        [v1, v1 ||| (1 <<< 22)] ∧
      writes_to (.in_link p.rx_channel)
          (p.start_transfer ⟨regs, []⟩ tx_list rx_list).trace =
        [v2, v2 ||| (1 <<< 22)] ∧
      (v1 ||| (1 <<< 22)).testBit 22 = true ∧
      (v2 ||| (1 <<< 22)).testBit 22 = true ∧
      v1 &&& 0xFFFFF = tx_list &&& 0xFFFFF ∧
      v2 &&& 0xFFFFF = rx_list &&& 0xFFFFF := by
  have htrace : (p.start_transfer ⟨regs, []⟩ tx_list rx_list).trace =
      [Event.read (.out_link p.tx_channel) (regs (.out_link p.tx_channel)),
       Event.write (.out_link p.tx_channel)
         ((regs (.out_link p.tx_channel) &&& 0xFFF00000) |||
           ((tx_list % 2 ^ 32) &&& 0xFFFFF)),
       Event.read (.in_link p.rx_channel) (regs (.in_link p.rx_channel)),
       Event.write (.in_link p.rx_channel)
         ((regs (.in_link p.rx_channel) &&& 0xFFF00000) |||
           ((rx_list % 2 ^ 32) &&& 0xFFFFF)),
       Event.read (.out_link p.tx_channel)
         ((regs (.out_link p.tx_channel) &&& 0xFFF00000) |||
           ((tx_list % 2 ^ 32) &&& 0xFFFFF)),
       Event.write (.out_link p.tx_channel)
         (((regs (.out_link p.tx_channel) &&& 0xFFF00000) |||
           ((tx_list % 2 ^ 32) &&& 0xFFFFF)) ||| (1 <<< 22)),
       Event.read (.in_link p.rx_channel)
         ((regs (.in_link p.rx_channel) &&& 0xFFF00000) |||
           ((rx_list % 2 ^ 32) &&& 0xFFFFF)),
       Event.write (.in_link p.rx_channel)
         (((regs (.in_link p.rx_channel) &&& 0xFFF00000) |||
           ((rx_list % 2 ^ 32) &&& 0xFFFFF)) ||| (1 <<< 22))] := by
    simp [DMAPipe.start_transfer, Channel.set_tx_start, Channel.set_rx_start,
      Channel.tx_enable, Channel.rx_enable, read_volatile, write_volatile,
      out_link_reg_eq, in_link_reg_eq]
  refine ⟨(regs (.out_link p.tx_channel) &&& 0xFFF00000) |||
      ((tx_list % 2 ^ 32) &&& 0xFFFFF),
    (regs (.in_link p.rx_channel) &&& 0xFFF00000) |||
      ((rx_list % 2 ^ 32) &&& 0xFFFFF),
    ?_, ?_, ?_, ?_, ?_, ?_, ?_,
    by simp [Nat.testBit_or, show Nat.testBit 4194304 22 = true by decide],
    by simp [Nat.testBit_or, show Nat.testBit 4194304 22 = true by decide],
    low20_of_set _ _, low20_of_set _ _⟩ <;>
    rw [htrace] <;>
    simp [writes_to]

/-- Claim C9: one reset pulse reads conf0, writes it with the reset bit set,
reads it back, and writes it with the reset bit cleared; running the pulse
twice — via `tx_reset` or via `rx_reset` — leaves every register with the
same value as running it once. -/
theorem C9_reset_idempotent (ch : Channel) (s : DmaState) :
    (ch.tx_reset (ch.tx_reset s)).regs = (ch.tx_reset s).regs ∧
    (ch.rx_reset (ch.rx_reset s)).regs = (ch.rx_reset s).regs ∧
    (ch.tx_reset s).trace = s.trace ++
      [Event.read ch.out_conf0_reg (s.regs ch.out_conf0_reg),
       Event.write ch.out_conf0_reg (s.regs ch.out_conf0_reg ||| 0b1),
       Event.read ch.out_conf0_reg (s.regs ch.out_conf0_reg ||| 0b1),
       Event.write ch.out_conf0_reg
         ((s.regs ch.out_conf0_reg ||| 0b1) &&& 0xFFFFFFFE)] ∧
    (ch.rx_reset s).trace = s.trace ++
      [Event.read ch.in_conf0_reg (s.regs ch.in_conf0_reg),
       Event.write ch.in_conf0_reg (s.regs ch.in_conf0_reg ||| 0b1),
       Event.read ch.in_conf0_reg (s.regs ch.in_conf0_reg ||| 0b1),
       Event.write ch.in_conf0_reg
         ((s.regs ch.in_conf0_reg ||| 0b1) &&& 0xFFFFFFFE)] ∧
    (s.regs ch.out_conf0_reg ||| 0b1).testBit 0 = true ∧
    ((s.regs ch.out_conf0_reg ||| 0b1) &&& 0xFFFFFFFE).testBit 0 = false := by
  refine ⟨?_, ?_, ?_, ?_, ?_, ?_⟩
  · funext q
    by_cases hq : q = ch.out_conf0_reg <;>
      simp [Channel.tx_reset, Channel.reset, read_volatile, write_volatile,
        hq, clear_set_clear]
  · funext q
    by_cases hq : q = ch.in_conf0_reg <;>
      simp [Channel.rx_reset, Channel.reset, read_volatile, write_volatile,
        hq, clear_set_clear]
  · simp [Channel.tx_reset, Channel.reset, read_volatile, write_volatile]
  · simp [Channel.rx_reset, Channel.reset, read_volatile, write_volatile]
  · simp [Nat.testBit_or, Nat.testBit_one_zero]
  · simp [Nat.testBit_and, show Nat.testBit 0xFFFFFFFE 0 = false by decide]

end Esp32c3Hal
